import Mathlib

set_option maxHeartbeats 1000000

/-!
# Verification of the Chimera Red WiFi manager core

Shallow embedding of `firmware/main/wifi_manager.c` (v2.2): the 802.11
address extractor, the EAPOL parser and handshake cache, the deauth burst
engine, and the sniffer channel handling.  Captured frames are modeled as
`List Nat` of bytes; C pointer reads `p[i]` become `byteAt p i` (bytes past
the captured buffer read as zero); machine integers are `Nat` with explicit
`% 2^w` where overflow matters.  Driver calls (`esp_wifi_*`) are external:
where a claim depends on them they are modeled by an explicit result oracle,
otherwise they are assumed to succeed.
-/

/-- Read the byte at offset `i` of a captured frame (C: `p[i]`). -/
def byteAt (p : List Nat) (i : Nat) : Nat := p.getD i 0

/-- The `n` bytes starting at offset `off` (C: a field read through
pointer `p + off`). -/
def subBytes (p : List Nat) (off n : Nat) : List Nat :=
  (List.range n).map (fun k => byteAt p (off + k))

/-- Byte offsets of (BSSID, station, destination) chosen by
`extract_data_frame_addrs` in `wifi_manager.c` from the ToDS/FromDS bits of
frame-control byte 1.  The C function returns pointers `payload + off`;
this returns the offsets. -/
def extract_data_frame_addrs (fc1 : Nat) : Nat × Nat × Nat :=
  let to_ds := fc1 % 2
  let from_ds := fc1 / 2 % 2
  if to_ds = 0 ∧ from_ds = 0 then
    -- IBSS (ad hoc): da = payload+4, sta = payload+10, bssid = payload+16
    (16, 10, 4)
  else if to_ds = 0 ∧ from_ds = 1 then
    -- From AP: da = payload+4, bssid = payload+10, sta = payload+4
    (10, 4, 4)
  else if to_ds = 1 ∧ from_ds = 0 then
    -- To AP: bssid = payload+4, sta = payload+10, da = payload+16
    (4, 10, 16)
  else
    -- WDS: da = payload+16, sta = payload+22, bssid = payload+4 (RA)
    (4, 22, 16)

/-- The 6-byte BSSID field selected by the extractor. -/
def frameBssid (p : List Nat) (fc1 : Nat) : List Nat :=
  subBytes p (extract_data_frame_addrs fc1).1 6

/-- The 6-byte station-address field selected by the extractor. -/
def frameSta (p : List Nat) (fc1 : Nat) : List Nat :=
  subBytes p (extract_data_frame_addrs fc1).2.1 6

/-- The 6-byte destination-address field selected by the extractor. -/
def frameDa (p : List Nat) (fc1 : Nat) : List Nat :=
  subBytes p (extract_data_frame_addrs fc1).2.2 6

/-- `calc_80211_header_len`: 802.11 MAC header length from the two
frame-control bytes. -/
def calc_80211_header_len (fc0 fc1 : Nat) : Nat :=
  let type := fc0 / 4 % 4
  let subtype := fc0 / 16 % 16
  let len := 24
  let len := if type = 2 ∧ subtype / 8 % 2 = 1 then len + 2 else len
  let len := if fc1 / 128 % 2 = 1 then len + 4 else len
  let len := if fc1 % 4 = 3 then len + 6 else len
  len

/-- Synthetic slot contents for the §4.2 address table: Addr1. -/
def addr1 : List Nat := [1, 2, 3, 4, 5, 6]

/-- Synthetic slot contents: Addr2. -/
def addr2 : List Nat := [11, 12, 13, 14, 15, 16]

/-- Synthetic slot contents: Addr3. -/
def addr3 : List Nat := [21, 22, 23, 24, 25, 26]

/-- Synthetic slot contents: Addr4. -/
def addr4 : List Nat := [31, 32, 33, 34, 35, 36]

/-- Synthetic 802.11 4-address data frame in the standard layout:
frame control (2), duration (2), Addr1 at 4, Addr2 at 10, Addr3 at 16,
sequence control at 22, Addr4 at 24; distinct bytes in every address slot. -/
def synthFrame (fc1 : Nat) : List Nat :=
  [0x08, fc1, 0, 0] ++ addr1 ++ addr2 ++ addr3 ++ [0xA0, 0xA1] ++ addr4

/-- The broadcast destination used when `target_mac` is NULL. -/
def broadcastMac : List Nat := [0xFF, 0xFF, 0xFF, 0xFF, 0xFF, 0xFF]

/-- The 26-byte deauthentication frame as transmitted by one iteration of
the `wifi_send_deauth_burst` loop: frame control `C0 00`, duration `00 00`,
DA = target (broadcast when NULL), SA = BSSID = AP MAC, sequence control
from the 16-bit counter (`frame[22] = (seq & 0x0F) << 4`,
`frame[23] = (seq >> 4) & 0xFF`), reason code little-endian at 24/25.
Fields are written at their fixed offsets, mirroring the `memcpy`s into the
fixed 26-byte array. -/
def buildDeauthFrame (target : Option (List Nat)) (ap : List Nat)
    (seq reason : Nat) : List Nat :=
  let da := fun k => byteAt (target.getD broadcastMac) k
  let sa := fun k => byteAt ap k
  [0xC0, 0x00, 0x00, 0x00,
   da 0, da 1, da 2, da 3, da 4, da 5,
   sa 0, sa 1, sa 2, sa 3, sa 4, sa 5,
   sa 0, sa 1, sa 2, sa 3, sa 4, sa 5,
   seq % 16 * 16, seq / 16 % 256,
   reason % 256, reason / 256 % 256]

/-- Reason-code rotation table of the burst loop (`reasons[]`). -/
def deauthReasons : List Nat := [7, 6, 2, 4, 1]

/-- The 16-bit reason-code field of a deauth frame (bytes 24/25,
little-endian). -/
def frameReason (f : List Nat) : Nat := byteAt f 24 + 256 * byteAt f 25

/-- The 12-bit sequence number carried in the sequence-control field of a
frame (upper nibble of byte 22 holds bits 0-3, byte 23 holds bits 4-11). -/
def frameSeqNum (f : List Nat) : Nat := byteAt f 22 / 16 + 16 * byteAt f 23

/-- The frames transmitted by a burst of `count` packets whose first
iteration sees sequence counter `seq0` (a uint16, incremented mod 2^16 per
packet).  Each iteration picks `reasons[g_deauth_seq % 5]` and stamps the
counter into the sequence-control field. -/
def burstFrames (target : Option (List Nat)) (ap : List Nat)
    (seq0 count : Nat) : List (List Nat) :=
  (List.range count).map (fun i =>
    let q := (seq0 + i) % 65536
    buildDeauthFrame target ap q (deauthReasons.getD (q % 5) 0))

/-- `HANDSHAKE_CACHE_SIZE` in `wifi_manager.c`. -/
def HANDSHAKE_CACHE_SIZE : Nat := 16

/-- `CACHE_TIMEOUT_MS` in `wifi_manager.c`. -/
def CACHE_TIMEOUT_MS : Nat := 10000

/-- `handshake_cache_entry_t`: one slot of the handshake cache. -/
structure CacheEntry where
  bssid : List Nat
  sta : List Nat
  anonce : List Nat
  replay_counter : List Nat
  key_desc_type : Nat
  key_desc_version : Nat
  last_seen : Nat
  valid : Bool
deriving DecidableEq, Repr

/-- A zeroed cache slot (the cache is `memset` to zero on clear). -/
def emptyEntry : CacheEntry :=
  ⟨List.replicate 6 0, List.replicate 6 0, List.replicate 32 0,
   List.replicate 8 0, 0, 0, 0, false⟩

/-- The cleared 16-slot handshake cache (`wifi_clear_handshake_cache`). -/
def clearedCache : List CacheEntry := List.replicate HANDSHAKE_CACHE_SIZE emptyEntry

/-- uint32 subtraction `now - last_seen` with wraparound, as computed on
`uint32_t` operands. -/
def u32sub (a b : Nat) : Nat :=
  (a + 4294967296 - b % 4294967296) % 4294967296

/-- The Message-1 slot-search loop of `process_eapol`: scan slots in order,
break at the first invalid slot or the first slot older than
`CACHE_TIMEOUT_MS`, meanwhile tracking the slot with the strictly smallest
`last_seen`; if no break occurs the oldest slot is used.  `i` is the index
of the list head in the full cache; `oldest_time`/`oldest_slot` are the
running minimum (initially `UINT32_MAX`/`0`). -/
def findSlotLoop (now : Nat) :
    List CacheEntry → Nat → Nat → Nat → Nat
  | [], _, _, oldest_slot => oldest_slot
  | e :: rest, i, oldest_time, oldest_slot =>
    if e.valid = false then i
    else if u32sub now e.last_seen > CACHE_TIMEOUT_MS then i
    else if e.last_seen < oldest_time then
      findSlotLoop now rest (i + 1) e.last_seen i
    else
      findSlotLoop now rest (i + 1) oldest_time oldest_slot

/-- The slot chosen for caching a Message-1 (lines 692-716 of
`wifi_manager.c`). -/
def findSlot (cache : List CacheEntry) (now : Nat) : Nat :=
  findSlotLoop now cache 0 4294967295 0

/-- The Message-1 upsert: overwrite the chosen slot with the data of the
incoming Message-1 and mark it valid. -/
def m1Upsert (cache : List CacheEntry) (now : Nat)
    (bssid sta anonce replay : List Nat) (kdt kdv : Nat) : List CacheEntry :=
  cache.set (findSlot cache now) ⟨bssid, sta, anonce, replay, kdt, kdv, now, true⟩

/-- The Message-2 matching loop: index of the first valid slot whose
(bssid, station) equal the frame's. -/
def findMatchLoop (bssid sta : List Nat) :
    List CacheEntry → Nat → Option Nat
  | [], _ => none
  | e :: rest, i =>
    if e.valid = true ∧ e.bssid = bssid ∧ e.sta = sta then some i
    else findMatchLoop bssid sta rest (i + 1)

/-- First matching cache slot for a Message-2 (lines 745-751). -/
def findMatch (cache : List CacheEntry) (bssid sta : List Nat) : Option Nat :=
  findMatchLoop bssid sta cache 0

/-- `wifi_handshake_t`: a completed-handshake record. -/
structure Handshake where
  bssid : List Nat
  sta : List Nat
  anonce : List Nat
  snonce : List Nat
  mic : List Nat
  replay_counter : List Nat
  eapol_frame : List Nat
  eapol_len : Nat
  key_desc_type : Nat
  key_desc_version : Nat
  channel : Nat
  rssi : Int
  timestamp : Nat
deriving DecidableEq, Repr

/-- The Message-2 handling of `process_eapol` (lines 744-851): find the
first valid matching slot; on a match, synthesize the completed handshake
from the cached Message-1 data (ANonce, replay counter, descriptor info)
and this frame's SNonce/MIC/EAPOL bytes, invalidate the slot, and emit;
otherwise change nothing. -/
def m2Process (cache : List CacheEntry) (bssid sta snonce mic ef : List Nat)
    (eapol_len channel : Nat) (rssi : Int) (now : Nat) :
    List CacheEntry × Option Handshake :=
  match findMatch cache bssid sta with
  | none => (cache, none)
  | some i =>
    let e := cache.getD i emptyEntry
    (cache.set i { e with valid := false },
     some ⟨bssid, sta, e.anonce, snonce, mic, e.replay_counter, ef, eapol_len,
           e.key_desc_type, e.key_desc_version, channel, rssi, now⟩)

/-- The 8-byte LLC/SNAP + EtherType 0x888E signature. -/
def LLC_SNAP_EAPOL : List Nat := [0xAA, 0xAA, 0x03, 0x00, 0x00, 0x00, 0x88, 0x8E]

/-- `EAPOL_KEY_MIN_LEN`. -/
def EAPOL_KEY_MIN_LEN : Nat := 95

/-- `MAX_EAPOL_FRAME_SIZE` (wifi_manager.h). -/
def MAX_EAPOL_FRAME_SIZE : Nat := 256

/-- Result of the validation chain at the head of `process_eapol`.  The C
function is a state machine returning `void`; every failed check drops the
frame.  The constructor names follow the comments on the corresponding
early returns: a frame too short for `header + LLC/SNAP + EAPOL header +
minimal key body`, or whose declared body length exceeds the captured
bytes, is truncated; a wrong signature, EAPOL type or key-descriptor type
is not EAPOL(-Key); a declared body below `EAPOL_KEY_MIN_LEN` is an invalid
key body. -/
inductive EapolResult where
  | notEapol
  | truncated
  | invalidKeyBody
  | key (key_desc_type key_desc_version key_info body_len : Nat)
deriving DecidableEq, Repr

/-- Whether the validation chain accepted the frame as an EAPOL-Key frame. -/
def EapolResult.isKey : EapolResult → Bool
  | .key _ _ _ _ => true
  | _ => false

/-- The EAPOL type byte (`eapol_hdr[1]`): 3 means EAPOL-Key. -/
def eapolType (payload : List Nat) (header_len : Nat) : Nat :=
  byteAt payload (header_len + 8 + 1)

/-- The declared EAPOL body length (`(eapol_hdr[2] << 8) | eapol_hdr[3]`). -/
def eapolBodyLen (payload : List Nat) (header_len : Nat) : Nat :=
  byteAt payload (header_len + 8 + 2) * 256 + byteAt payload (header_len + 8 + 3)

/-- The key-descriptor-type byte (`eapol[0]`). -/
def eapolKeyDescType (payload : List Nat) (header_len : Nat) : Nat :=
  byteAt payload (header_len + 8 + 4)

/-- The 16-bit key-information field (`(eapol[1] << 8) | eapol[2]`). -/
def eapolKeyInfo (payload : List Nat) (header_len : Nat) : Nat :=
  byteAt payload (header_len + 8 + 5) * 256 + byteAt payload (header_len + 8 + 6)

/-- The validation chain of `process_eapol` (lines 622-666), in source
order: (1) `len ≥ header_len + 8 + 4 + EAPOL_KEY_MIN_LEN`; (2) the 8 bytes
after the 802.11 header equal the LLC/SNAP+0x888E signature; (3) EAPOL type
is 3 (Key); (4) the declared body length fits inside the captured length;
(5) the declared body length is at least `EAPOL_KEY_MIN_LEN`; (6) the
key-descriptor type is 0x02 (RSN) or 0xFE (WPA1). -/
def eapolClassify (payload : List Nat) (len header_len : Nat) : EapolResult :=
  if len < header_len + 8 + 4 + EAPOL_KEY_MIN_LEN then .truncated
  else if subBytes payload header_len 8 ≠ LLC_SNAP_EAPOL then .notEapol
  else if eapolType payload header_len ≠ 3 then .notEapol
  else if len < header_len + 8 + (4 + eapolBodyLen payload header_len) then .truncated
  else if eapolBodyLen payload header_len < EAPOL_KEY_MIN_LEN then .invalidKeyBody
  else if eapolKeyDescType payload header_len ≠ 0x02 ∧
          eapolKeyDescType payload header_len ≠ 0xFE then .notEapol
  else
    .key (eapolKeyDescType payload header_len) (eapolKeyInfo payload header_len % 8)
      (eapolKeyInfo payload header_len) (eapolBodyLen payload header_len)

/-- The cache-and-counters state mutated by `process_eapol`
(`g_handshake_cache` and the `g_m1/m2/complete` atomics). -/
structure CacheState where
  cache : List CacheEntry
  m1_count : Nat
  m2_count : Nat
  complete_count : Nat
deriving DecidableEq, Repr

/-- The state after `wifi_clear_handshake_cache`. -/
def clearedState : CacheState := ⟨clearedCache, 0, 0, 0⟩

/-- `process_eapol`: validate the frame (see `eapolClassify`), extract
(bssid, station) for the frame's ToDS/FromDS mode, classify the key-info
bits (Message-1 = ack ∧ ¬mic, Message-2 = mic ∧ ¬ack ∧ ¬secure), and update
the handshake cache, returning the new state and the emitted completed
handshake, if any.  Bit masks 0x0080/0x0100/0x0200 are the key-ack,
key-MIC and secure bits of the 16-bit key-information field. -/
def process_eapol (payload : List Nat) (len header_len channel : Nat)
    (rssi : Int) (now : Nat) (st : CacheState) : CacheState × Option Handshake :=
  match eapolClassify payload len header_len with
  | .key kdt kdv key_info body_len =>
    let eapol_hdr := header_len + 8
    let eapol := eapol_hdr + 4
    let key_ack := key_info / 128 % 2 = 1
    let key_mic := key_info / 256 % 2 = 1
    let key_secure := key_info / 512 % 2 = 1
    let fc1 := byteAt payload 1
    let bssid := frameBssid payload fc1
    let sta := frameSta payload fc1
    if key_ack ∧ ¬ key_mic then
      let cache2 := m1Upsert st.cache now bssid sta
        (subBytes payload (eapol + 13) 32) (subBytes payload (eapol + 5) 8) kdt kdv
      ({ st with cache := cache2, m1_count := st.m1_count + 1 }, none)
    else if key_mic ∧ ¬ key_ack ∧ ¬ key_secure then
      let frame_len := min (4 + body_len) MAX_EAPOL_FRAME_SIZE
      let r := m2Process st.cache bssid sta
        (subBytes payload (eapol + 13) 32) (subBytes payload (eapol + 77) 16)
        (subBytes payload eapol_hdr frame_len) frame_len channel rssi now
      match r.2 with
      | some hs =>
        ({ st with cache := r.1, m2_count := st.m2_count + 1,
                   complete_count := st.complete_count + 1 }, some hs)
      | none => ({ st with cache := r.1, m2_count := st.m2_count + 1 }, none)
    else (st, none)
  | _ => (st, none)

/-- `esp_err_t` values relevant here. -/
inductive EspErr where
  | ok
  | fail
  | invalidArg
  | invalidState
deriving DecidableEq, Repr

/-- The file-scope radio-controller state of `wifi_manager.c`:
`g_current_channel`, `g_promiscuous_active`, `g_channel_hopping`,
`g_recon_mode`, the AP-interface MAC address held by the driver,
`g_deauth_seq` and `g_hop_index`. -/
structure WifiState where
  current_channel : Nat
  promiscuous_active : Bool
  channel_hopping : Bool
  recon_mode : Bool
  ap_mac : List Nat
  deauth_seq : Nat
  hop_index : Nat
deriving DecidableEq, Repr

/-- `wifi_sniffer_start(channel)` (lines 391-447), with the underlying
driver calls assumed to succeed: stop any existing hopper, reconfigure the
driver, set `g_current_channel` to `channel` when it is in 1..13 and to 1
otherwise, enable the promiscuous callback, and create the hopper task
only when `channel == 0`.  Returns `ESP_OK`. -/
def wifi_sniffer_start (channel : Nat) (s : WifiState) : WifiState × EspErr :=
  let s1 := { s with channel_hopping := false }
  let chan := if 0 < channel ∧ channel ≤ 13 then channel else 1
  let s2 := { s1 with current_channel := chan, promiscuous_active := true }
  let s3 := if channel = 0 then { s2 with channel_hopping := true } else s2
  (s3, .ok)

/-- `wifi_set_channel(channel)` (lines 481-487): reject channels outside
1..13 with `ESP_ERR_INVALID_ARG` before touching any state; otherwise set
`g_current_channel` and apply it to the driver. -/
def wifi_set_channel (channel : Nat) (s : WifiState) : WifiState × EspErr :=
  if channel < 1 ∨ channel > 13 then (s, .invalidArg)
  else ({ s with current_channel := channel }, .ok)

/-- Result oracle for the driver calls made during the deauth burst's
mode-switch step.  The five `ESP_ERROR_CHECK`ed reconfiguration calls
(`esp_wifi_set_mode`, `esp_wifi_set_config`, `esp_wifi_start`,
`esp_wifi_set_ps`, `esp_wifi_set_channel`) each have a fixed result;
`tx_ok i` tells whether the i-th `esp_wifi_80211_tx` returns `ESP_OK`. -/
structure DeauthDriver where
  set_mode_res : EspErr
  set_config_res : EspErr
  start_res : EspErr
  set_ps_res : EspErr
  set_channel_res : EspErr
  tx_ok : Nat → Bool

/-- A driver on which every call succeeds. -/
def driverOk : DeauthDriver := ⟨.ok, .ok, .ok, .ok, .ok, fun _ => true⟩

/-- `wifi_send_deauth_burst` (lines 493-607).  `ESP_ERROR_CHECK` aborts
the process when its call fails; an abort is modeled as `Except.error`
carrying the state at the abort point (no frame has been transmitted
there, and nothing is returned to the caller).  On the success path the
result carries the final state, the transmitted frames, the number of
sends the driver accepted, and the returned `esp_err_t` (`ESP_OK` iff at
least one packet was sent).  Mirrored sequence: substitute the current
channel for channel 0; snapshot `was_promisc`/`was_hopping`/the real MAC;
stop hopping; spoof the AP MAC; run the five checked reconfiguration
calls; transmit `count` frames; restore the MAC; if the radio was
sniffing, call `wifi_sniffer_start` on the burst channel and then restart
hopping if it was enabled.  The `reason` argument is unused by the loop,
which rotates through `deauthReasons` instead. -/
def wifi_send_deauth_burst (drv : DeauthDriver) (target_mac : Option (List Nat))
    (ap_mac : List Nat) (channel0 reason count : Nat) (s : WifiState) :
    Except WifiState (WifiState × List (List Nat) × Nat × EspErr) :=
  let channel := if channel0 = 0 then s.current_channel else channel0
  let was_promisc := s.promiscuous_active
  let was_hopping := s.channel_hopping
  let original_mac := s.ap_mac
  let s1 := { s with channel_hopping := false }
  let s2 := { s1 with ap_mac := ap_mac }
  if drv.set_mode_res ≠ .ok then .error s2
  else if drv.set_config_res ≠ .ok then .error s2
  else if drv.start_res ≠ .ok then .error s2
  else if drv.set_ps_res ≠ .ok then .error s2
  else if drv.set_channel_res ≠ .ok then .error s2
  else
    let frames := burstFrames target_mac ap_mac s2.deauth_seq count
    let sent := (List.range count).countP drv.tx_ok
    let s3 := { s2 with deauth_seq := (s2.deauth_seq + count) % 65536,
                        ap_mac := original_mac }
    let s4 :=
      if was_promisc then
        let s5 := (wifi_sniffer_start channel s3).1
        if was_hopping then { s5 with channel_hopping := true } else s5
      else s3
    .ok (s4, frames, sent, if sent > 0 then .ok else .fail)

/-- A slot the Message-1 scan may break at: invalid, or older than the
cache timeout. -/
def slotReusable (now : Nat) (e : CacheEntry) : Prop :=
  e.valid = false ∨ u32sub now e.last_seen > CACHE_TIMEOUT_MS

instance (now : Nat) (e : CacheEntry) : Decidable (slotReusable now e) := by
  unfold slotReusable
  infer_instance

/-- Distinct BSSIDs for the 17-insert eviction scenario. -/
def pairB (i : Nat) : List Nat := [i % 256, 0xB0, 0, 0, 0, 0]

/-- Distinct station addresses for the 17-insert eviction scenario. -/
def pairS (i : Nat) : List Nat := [i % 256, 0x50, 0, 0, 0, 0]

/-- Seventeen Message-1 upserts with pairwise distinct (bssid, station)
pairs and increasing timestamps 100 ms apart (all within the 10 s
timeout), starting from a cleared cache, with no intervening Message-2. -/
def seventeenInserts : List CacheEntry :=
  (List.range 17).foldl
    (fun c i => m1Upsert c (100 * i) (pairB i) (pairS i)
      (List.replicate 32 7) (List.replicate 8 0) 2 2)
    clearedCache

/-- BSSID of the concrete duplicate-Message-1 scenario. -/
def bssidB : List Nat := [0xAA, 0xBB, 0xCC, 0x01, 0x02, 0x03]

/-- Station address of the concrete duplicate-Message-1 scenario. -/
def staS : List Nat := [0x10, 0x20, 0x30, 0x40, 0x50, 0x60]

/-- A concrete, fully valid Message-1 EAPOL-Key frame: FromDS data frame
(fc = 08 02), 24-byte header with destination = station and Addr2 = BSSID,
LLC/SNAP+0x888E, EAPOL header (version 1, type 3, body length 95), key
descriptor 0x02, key-information 0x0082 (ack set, MIC and secure clear,
version 2), replay counter, a 32-byte ANonce, and the rest of the minimal
95-byte key body zeroed.  Total captured length 131. -/
def m1Frame : List Nat :=
  [0x08, 0x02, 0x00, 0x00] ++ staS ++ bssidB ++ [1, 1, 1, 1, 1, 1] ++ [0x10, 0x00]
  ++ LLC_SNAP_EAPOL ++ [0x01, 0x03, 0x00, 0x5F]
  ++ [0x02, 0x00, 0x82, 0x00, 0x10]
  ++ [0, 0, 0, 0, 0, 0, 0, 1]
  ++ (List.range 32).map (fun i => i + 1)
  ++ List.replicate 50 0

/-! ## Helper lemmas -/

theorem burstFrames_getD (t : Option (List Nat)) (a : List Nat)
    (s0 n i : Nat) (h : i < n) :
    (burstFrames t a s0 n).getD i [] =
      buildDeauthFrame t a ((s0 + i) % 65536)
        (deauthReasons.getD ((s0 + i) % 65536 % 5) 0) := by
  simp [burstFrames, List.getD_eq_getElem?_getD, List.getElem?_map,
    List.getElem?_range, h]

theorem frameSeqNum_build (t : Option (List Nat)) (a : List Nat) (q r : Nat) :
    frameSeqNum (buildDeauthFrame t a q r) = q % 16 + 16 * (q / 16 % 256) := by
  have h : frameSeqNum (buildDeauthFrame t a q r) =
      q % 16 * 16 / 16 + 16 * (q / 16 % 256) := rfl
  rw [h]
  omega

/-! ## C1: the ToDS/FromDS address table -/

/-- **C1 counterexample**: on the synthetic WDS frame (ToDS=1, FromDS=1)
the extractor does not return BSSID = Addr2 and Station = Addr4 as the
claim's table states. -/
theorem c1_counterexample :
    ¬ (frameBssid (synthFrame 0x03) 0x03 = addr2 ∧
       frameSta (synthFrame 0x03) 0x03 = addr4) := by
  decide

/-- **C1 (amended)**: on a synthetic frame with pairwise distinct
addresses in every slot, the extractor returns: (ToDS=0,FromDS=0) BSSID =
Addr3, Station = Addr2, Destination = Addr1; (0,1) BSSID = Addr2, Station
= Addr1, Destination = Addr1; (1,0) BSSID = Addr1, Station = Addr2,
Destination = Addr3; and in the WDS case (1,1) BSSID = Addr1 (the receiver
address, used as an approximation), Destination = Addr3, and Station = the
six bytes at offset 22, i.e. the sequence-control field followed by the
first four bytes of Addr4 — not Addr4, and not BSSID = Addr2. -/
theorem c1_address_table :
    (addr1 ≠ addr2 ∧ addr1 ≠ addr3 ∧ addr1 ≠ addr4 ∧ addr2 ≠ addr3 ∧
      addr2 ≠ addr4 ∧ addr3 ≠ addr4) ∧
    (frameBssid (synthFrame 0x00) 0x00 = addr3 ∧
      frameSta (synthFrame 0x00) 0x00 = addr2 ∧
      frameDa (synthFrame 0x00) 0x00 = addr1) ∧
    (frameBssid (synthFrame 0x02) 0x02 = addr2 ∧
      frameSta (synthFrame 0x02) 0x02 = addr1 ∧
      frameDa (synthFrame 0x02) 0x02 = addr1) ∧
    (frameBssid (synthFrame 0x01) 0x01 = addr1 ∧
      frameSta (synthFrame 0x01) 0x01 = addr2 ∧
      frameDa (synthFrame 0x01) 0x01 = addr3) ∧
    (frameBssid (synthFrame 0x03) 0x03 = addr1 ∧
      frameSta (synthFrame 0x03) 0x03 = [0xA0, 0xA1, 31, 32, 33, 34] ∧
      frameDa (synthFrame 0x03) 0x03 = addr3) := by
  decide

/-! ## C6: deauth burst sequence numbers -/

/-- **C6**: over 4096 consecutive burst packets starting at any counter
value, the 12-bit sequence-control numbers are `(seq0 + i) % 4096`, hence
pairwise distinct, covering every value in 0..4095, and wrapping from 4095
back to 0 with no gaps. -/
theorem c6_seq_numbers (target : Option (List Nat)) (ap : List Nat) (seq0 : Nat) :
    (∀ i, i < 4096 →
      frameSeqNum ((burstFrames target ap seq0 4096).getD i []) = (seq0 + i) % 4096) ∧
    (∀ i j, i < 4096 → j < 4096 → i ≠ j →
      frameSeqNum ((burstFrames target ap seq0 4096).getD i []) ≠
        frameSeqNum ((burstFrames target ap seq0 4096).getD j [])) ∧
    (∀ v, v < 4096 → ∃ i, i < 4096 ∧
      frameSeqNum ((burstFrames target ap seq0 4096).getD i []) = v) ∧
    (∀ i, i + 1 < 4096 →
      frameSeqNum ((burstFrames target ap seq0 4096).getD i []) = 4095 →
      frameSeqNum ((burstFrames target ap seq0 4096).getD (i + 1) []) = 0) := by
  have key : ∀ i, i < 4096 →
      frameSeqNum ((burstFrames target ap seq0 4096).getD i []) = (seq0 + i) % 4096 := by
    intro i hi
    rw [burstFrames_getD _ _ _ _ _ hi, frameSeqNum_build]
    omega
  refine ⟨key, ?_, ?_, ?_⟩
  · intro i j hi hj hne
    rw [key i hi, key j hj]
    omega
  · intro v hv
    refine ⟨(v + 4096 - seq0 % 4096) % 4096, by omega, ?_⟩
    rw [key _ (by omega)]
    omega
  · intro i hi h1
    rw [key i (by omega)] at h1
    rw [key (i + 1) hi]
    omega

/-- Witness for C6 at a concrete input. -/
theorem c6_witness :
    frameSeqNum ((burstFrames none [1, 2, 3, 4, 5, 6] 4090 4096).getD 10 []) =
      (4090 + 10) % 4096 :=
  (c6_seq_numbers none [1, 2, 3, 4, 5, 6] 4090).1 10 (by decide)

/-! ## C8: deauth frame round-trip -/

/-- **C8**: building the 26-byte deauth frame for any (target, ap, reason)
and re-parsing it with the address extractor (on the frame's own
frame-control byte 1, which is 0) plus the reason-code field recovers the
target as destination, the ap as both the station/SA slot and the BSSID,
and the given reason code. -/
theorem c8_roundtrip (t0 t1 t2 t3 t4 t5 a0 a1 a2 a3 a4 a5 seq reason : Nat)
    (hr : reason < 65536) :
    (buildDeauthFrame (some [t0, t1, t2, t3, t4, t5]) [a0, a1, a2, a3, a4, a5]
        seq reason).length = 26 ∧
    byteAt (buildDeauthFrame (some [t0, t1, t2, t3, t4, t5]) [a0, a1, a2, a3, a4, a5]
        seq reason) 0 = 0xC0 ∧
    byteAt (buildDeauthFrame (some [t0, t1, t2, t3, t4, t5]) [a0, a1, a2, a3, a4, a5]
        seq reason) 1 = 0 ∧
    frameDa (buildDeauthFrame (some [t0, t1, t2, t3, t4, t5]) [a0, a1, a2, a3, a4, a5]
        seq reason) 0 = [t0, t1, t2, t3, t4, t5] ∧
    frameSta (buildDeauthFrame (some [t0, t1, t2, t3, t4, t5]) [a0, a1, a2, a3, a4, a5]
        seq reason) 0 = [a0, a1, a2, a3, a4, a5] ∧
    frameBssid (buildDeauthFrame (some [t0, t1, t2, t3, t4, t5]) [a0, a1, a2, a3, a4, a5]
        seq reason) 0 = [a0, a1, a2, a3, a4, a5] ∧
    frameReason (buildDeauthFrame (some [t0, t1, t2, t3, t4, t5]) [a0, a1, a2, a3, a4, a5]
        seq reason) = reason := by
  refine ⟨rfl, rfl, rfl, rfl, rfl, rfl, ?_⟩
  have h : frameReason (buildDeauthFrame (some [t0, t1, t2, t3, t4, t5])
      [a0, a1, a2, a3, a4, a5] seq reason) = reason % 256 + 256 * (reason / 256 % 256) := rfl
  rw [h]
  omega

/-- Witness for C8 at a concrete input. -/
theorem c8_witness :
    frameReason (buildDeauthFrame (some [1, 2, 3, 4, 5, 6]) [7, 8, 9, 10, 11, 12] 77 513) = 513 :=
  (c8_roundtrip 1 2 3 4 5 6 7 8 9 10 11 12 77 513 (by decide)).2.2.2.2.2.2

/-! ## C10: channel validation -/

/-- **C10**: `wifi_sniffer_start` accepts any channel argument above 13,
configuring fixed-channel sniffing on channel 1 with hopping disabled and
returning `ESP_OK`; hopping is started exactly when the argument is 0; and
`wifi_set_channel` rejects any channel outside 1..13 with
`ESP_ERR_INVALID_ARG` leaving the state unchanged. -/
theorem c10_channel_validation (channel : Nat) (s : WifiState) (hgt : channel > 13) :
    wifi_sniffer_start channel s =
      ({ s with current_channel := 1, promiscuous_active := true,
                channel_hopping := false }, .ok) ∧
    (∀ ch t, ((wifi_sniffer_start ch t).1.channel_hopping = true ↔ ch = 0)) ∧
    (∀ ch t, (wifi_sniffer_start ch t).2 = .ok) ∧
    (∀ ch t, ch < 1 ∨ ch > 13 → wifi_set_channel ch t = (t, .invalidArg)) := by
  refine ⟨?_, ?_, ?_, ?_⟩
  · have h1 : ¬(0 < channel ∧ channel ≤ 13) := by omega
    have h2 : channel ≠ 0 := by omega
    simp [wifi_sniffer_start, h1, h2]
  · intro ch t
    by_cases h : ch = 0 <;> simp [wifi_sniffer_start, h]
  · intro ch t
    by_cases h : ch = 0 <;> simp [wifi_sniffer_start, h]
  · intro ch t h
    unfold wifi_set_channel
    rw [if_pos h]

/-- Witness for C10 at a concrete input. -/
theorem c10_witness :
    wifi_sniffer_start 36 ⟨6, false, true, false, [1, 2, 3, 4, 5, 6], 0, 0⟩ =
      (⟨1, true, false, false, [1, 2, 3, 4, 5, 6], 0, 0⟩, .ok) :=
  (c10_channel_validation 36 ⟨6, false, true, false, [1, 2, 3, 4, 5, 6], 0, 0⟩ (by decide)).1

/-! ## C2: EAPOL validation chain -/

/-- **C2**: `process_eapol` accepts a frame only when every validation
step passes, and otherwise drops it with no state change; over frames long
enough to contain a minimal EAPOL-Key frame (the code checks this stronger
minimum first), a wrong 8-byte LLC/SNAP+0x888E signature, a wrong EAPOL
type, or a key-descriptor type other than 0x02/0xFE classifies as
NotEapol, and a declared body length that does not fit inside the captured
length classifies as Truncated. -/
theorem c2_eapol_validation (payload : List Nat) (len header_len channel : Nat)
    (rssi : Int) (now : Nat) (st : CacheState) :
    ((eapolClassify payload len header_len).isKey = false →
      process_eapol payload len header_len channel rssi now st = (st, none)) ∧
    (len ≥ header_len + 107 → subBytes payload header_len 8 ≠ LLC_SNAP_EAPOL →
      eapolClassify payload len header_len = .notEapol) ∧
    (len ≥ header_len + 107 → subBytes payload header_len 8 = LLC_SNAP_EAPOL →
      eapolType payload header_len ≠ 3 →
      eapolClassify payload len header_len = .notEapol) ∧
    (len ≥ header_len + 107 → subBytes payload header_len 8 = LLC_SNAP_EAPOL →
      eapolType payload header_len = 3 →
      len ≥ header_len + 8 + (4 + eapolBodyLen payload header_len) →
      eapolBodyLen payload header_len ≥ EAPOL_KEY_MIN_LEN →
      eapolKeyDescType payload header_len ≠ 0x02 →
      eapolKeyDescType payload header_len ≠ 0xFE →
      eapolClassify payload len header_len = .notEapol) ∧
    (len ≥ header_len + 107 → subBytes payload header_len 8 = LLC_SNAP_EAPOL →
      eapolType payload header_len = 3 →
      len < header_len + 8 + (4 + eapolBodyLen payload header_len) →
      eapolClassify payload len header_len = .truncated) := by
  refine ⟨?_, ?_, ?_, ?_, ?_⟩
  · intro hk
    cases h : eapolClassify payload len header_len with
    | key a b c d => rw [h] at hk; simp [EapolResult.isKey] at hk
    | notEapol => simp [process_eapol, h]
    | truncated => simp [process_eapol, h]
    | invalidKeyBody => simp [process_eapol, h]
  · intro hlen hsig
    have h1 : ¬ (len < header_len + 8 + 4 + EAPOL_KEY_MIN_LEN) := by
      simp only [EAPOL_KEY_MIN_LEN]; omega
    simp [eapolClassify, h1, hsig]
  · intro hlen hsig ht
    have h1 : ¬ (len < header_len + 8 + 4 + EAPOL_KEY_MIN_LEN) := by
      simp only [EAPOL_KEY_MIN_LEN]; omega
    simp [eapolClassify, h1, hsig, ht]
  · intro hlen hsig ht hfit hbody hk1 hk2
    have h1 : ¬ (len < header_len + 8 + 4 + EAPOL_KEY_MIN_LEN) := by
      simp only [EAPOL_KEY_MIN_LEN]; omega
    have h4 : ¬ (len < header_len + 8 + (4 + eapolBodyLen payload header_len)) := by omega
    have h5 : ¬ (eapolBodyLen payload header_len < EAPOL_KEY_MIN_LEN) := by omega
    simp [eapolClassify, h1, hsig, ht, h4, h5, hk1, hk2]
  · intro hlen hsig ht hlt
    have h1 : ¬ (len < header_len + 8 + 4 + EAPOL_KEY_MIN_LEN) := by
      simp only [EAPOL_KEY_MIN_LEN]; omega
    simp [eapolClassify, h1, hsig, ht, hlt]

/-- Witness for C2 at a concrete input: a 131-byte all-zero frame is not
EAPOL and leaves a cleared state unchanged. -/
theorem c2_witness :
    eapolClassify (List.replicate 131 0) 131 24 = .notEapol ∧
    process_eapol (List.replicate 131 0) 131 24 1 0 0 clearedState =
      (clearedState, none) :=
  ⟨(c2_eapol_validation (List.replicate 131 0) 131 24 1 0 0 clearedState).2.1
      (by decide) (by decide),
   (c2_eapol_validation (List.replicate 131 0) 131 24 1 0 0 clearedState).1
      (by decide)⟩

/-! ## Cache lemmas -/

theorem findMatchLoop_isSome (B S : List Nat) (l : List CacheEntry) (i : Nat) :
    (findMatchLoop B S l i).isSome = true ↔
      ∃ e ∈ l, e.valid = true ∧ e.bssid = B ∧ e.sta = S := by
  induction l generalizing i with
  | nil => simp [findMatchLoop]
  | cons e rest ih =>
    by_cases h : e.valid = true ∧ e.bssid = B ∧ e.sta = S
    · simp only [findMatchLoop, if_pos h, Option.isSome_some]
      constructor
      · intro _
        exact ⟨e, List.mem_cons_self e rest, h⟩
      · intro _
        trivial
    · simp only [findMatchLoop, if_neg h]
      rw [ih (i + 1)]
      constructor
      · rintro ⟨x, hx, hp⟩
        exact ⟨x, List.mem_cons_of_mem e hx, hp⟩
      · rintro ⟨x, hx, hp⟩
        rcases List.mem_cons.1 hx with rfl | hx2
        · exact absurd hp h
        · exact ⟨x, hx2, hp⟩

theorem m2Process_isSome (cache : List CacheEntry) (B S sn mi ef : List Nat)
    (el ch : Nat) (rssi : Int) (now : Nat) :
    (m2Process cache B S sn mi ef el ch rssi now).2.isSome =
      (findMatch cache B S).isSome := by
  unfold m2Process
  cases findMatch cache B S <;> simp

theorem findMatchLoop_replicate_empty (B S : List Nat) (n i : Nat) :
    findMatchLoop B S (List.replicate n emptyEntry) i = none := by
  induction n generalizing i with
  | zero => rfl
  | succ n ih =>
    rw [List.replicate_succ]
    have h : ¬ (emptyEntry.valid = true ∧ emptyEntry.bssid = B ∧ emptyEntry.sta = S) := by
      simp [emptyEntry]
    simp only [findMatchLoop, if_neg h]
    exact ih (i + 1)

theorem findSlotLoop_empty_head (now i ot os n : Nat) :
    findSlotLoop now (List.replicate (n + 1) emptyEntry) i ot os = i := by
  rw [List.replicate_succ]
  simp only [findSlotLoop]
  rw [if_pos (show emptyEntry.valid = false from rfl)]

/-! ## C3: Message-2 completion -/

/-- **C3**: a Message-2 for (B, S) emits a completed handshake iff a valid
cached Message-1 entry for (B, S) exists at that moment; a Message-1 from a
cleared cache followed by a matching Message-2 emits exactly one completed
handshake and leaves no valid (B, S) entry, so an immediate replay of the
same Message-2 emits nothing; a Message-2 with no preceding Message-1 for
its pair emits nothing. -/
theorem c3_handshake_completion (cache : List CacheEntry)
    (B S snonce mic ef anonce replay : List Nat)
    (el ch kdt kdv now now2 : Nat) (rssi : Int) :
    ((m2Process cache B S snonce mic ef el ch rssi now2).2.isSome = true ↔
      ∃ e ∈ cache, e.valid = true ∧ e.bssid = B ∧ e.sta = S) ∧
    ((m2Process (m1Upsert clearedCache now B S anonce replay kdt kdv)
        B S snonce mic ef el ch rssi now2).2.isSome = true) ∧
    (∀ e ∈ (m2Process (m1Upsert clearedCache now B S anonce replay kdt kdv)
        B S snonce mic ef el ch rssi now2).1,
      ¬ (e.valid = true ∧ e.bssid = B ∧ e.sta = S)) ∧
    ((m2Process (m2Process (m1Upsert clearedCache now B S anonce replay kdt kdv)
        B S snonce mic ef el ch rssi now2).1 B S snonce mic ef el ch rssi now2).2 = none) ∧
    ((¬ ∃ e ∈ cache, e.valid = true ∧ e.bssid = B ∧ e.sta = S) →
      (m2Process cache B S snonce mic ef el ch rssi now2).2 = none) := by
  have hiff : ∀ c : List CacheEntry,
      (m2Process c B S snonce mic ef el ch rssi now2).2.isSome = true ↔
        ∃ e ∈ c, e.valid = true ∧ e.bssid = B ∧ e.sta = S := by
    intro c
    rw [m2Process_isSome]
    exact findMatchLoop_isSome B S c 0
  have hc1 : m1Upsert clearedCache now B S anonce replay kdt kdv =
      CacheEntry.mk B S anonce replay kdt kdv now true ::
        List.replicate 15 emptyEntry := rfl
  have hfm : findMatch (CacheEntry.mk B S anonce replay kdt kdv now true ::
      List.replicate 15 emptyEntry) B S = some 0 := by
    have hcondT : (CacheEntry.mk B S anonce replay kdt kdv now true).valid = true ∧
        (CacheEntry.mk B S anonce replay kdt kdv now true).bssid = B ∧
        (CacheEntry.mk B S anonce replay kdt kdv now true).sta = S := ⟨rfl, rfl, rfl⟩
    unfold findMatch
    rw [findMatchLoop, if_pos hcondT]
  have hm2 : m2Process (CacheEntry.mk B S anonce replay kdt kdv now true ::
      List.replicate 15 emptyEntry) B S snonce mic ef el ch rssi now2 =
      (CacheEntry.mk B S anonce replay kdt kdv now false ::
        List.replicate 15 emptyEntry,
       some (Handshake.mk B S anonce snonce mic replay ef el kdt kdv ch rssi now2)) := by
    unfold m2Process
    rw [hfm]
    rfl
  have hreplay : findMatch (CacheEntry.mk B S anonce replay kdt kdv now false ::
      List.replicate 15 emptyEntry) B S = none := by
    have hcondF : ¬ ((CacheEntry.mk B S anonce replay kdt kdv now false).valid = true ∧
        (CacheEntry.mk B S anonce replay kdt kdv now false).bssid = B ∧
        (CacheEntry.mk B S anonce replay kdt kdv now false).sta = S) := by
      simp
    unfold findMatch
    rw [findMatchLoop, if_neg hcondF]
    exact findMatchLoop_replicate_empty B S 15 1
  refine ⟨hiff cache, ?_, ?_, ?_, fun hn => ?_⟩
  · rw [hc1, hm2]
    rfl
  · rw [hc1, hm2]
    rintro e he ⟨hv, hb, hs⟩
    rcases List.mem_cons.1 he with rfl | h2
    · simp at hv
    · rw [List.eq_of_mem_replicate h2] at hv
      simp [emptyEntry] at hv
  · rw [hc1, hm2]
    show (m2Process (CacheEntry.mk B S anonce replay kdt kdv now false ::
        List.replicate 15 emptyEntry) B S snonce mic ef el ch rssi now2).2 = none
    unfold m2Process
    rw [hreplay]
  · cases h : (m2Process cache B S snonce mic ef el ch rssi now2).2 with
    | none => rfl
    | some v => exact absurd ((hiff cache).1 (by rw [h]; rfl)) hn

/-- Witness for C3 at a concrete input: a Message-2 on a cleared cache
emits nothing. -/
theorem c3_witness :
    (m2Process clearedCache bssidB staS (List.replicate 32 9) (List.replicate 16 1)
      (List.replicate 99 0) 99 6 (-40) 500).2 = none :=
  (c3_handshake_completion clearedCache bssidB staS (List.replicate 32 9)
      (List.replicate 16 1) (List.replicate 99 0) (List.replicate 32 7)
      (List.replicate 8 0) 99 6 2 2 100 500 (-40)).2.2.2.2 (by decide)

/-! ## C4: the (bssid, station) uniqueness invariant -/

/-- **C4 counterexample**: processing the same valid Message-1 frame twice
(100 ms apart, well within the cache timeout) from a cleared cache leaves
TWO valid cache entries with identical (bssid, station): the Message-1
upsert never looks for an existing entry of the pair, so the second copy
lands in the next free slot instead of replacing the first. -/
theorem c4_counterexample :
    ((process_eapol m1Frame 131 24 6 (-40) 1100
        (process_eapol m1Frame 131 24 6 (-40) 1000 clearedState).1).1.cache.getD 0
          emptyEntry).valid = true ∧
    ((process_eapol m1Frame 131 24 6 (-40) 1100
        (process_eapol m1Frame 131 24 6 (-40) 1000 clearedState).1).1.cache.getD 1
          emptyEntry).valid = true ∧
    ((process_eapol m1Frame 131 24 6 (-40) 1100
        (process_eapol m1Frame 131 24 6 (-40) 1000 clearedState).1).1.cache.getD 0
          emptyEntry).bssid = bssidB ∧
    ((process_eapol m1Frame 131 24 6 (-40) 1100
        (process_eapol m1Frame 131 24 6 (-40) 1000 clearedState).1).1.cache.getD 1
          emptyEntry).bssid = bssidB ∧
    ((process_eapol m1Frame 131 24 6 (-40) 1100
        (process_eapol m1Frame 131 24 6 (-40) 1000 clearedState).1).1.cache.getD 0
          emptyEntry).sta = staS ∧
    ((process_eapol m1Frame 131 24 6 (-40) 1100
        (process_eapol m1Frame 131 24 6 (-40) 1000 clearedState).1).1.cache.getD 1
          emptyEntry).sta = staS := by
  decide

/-- **C4 (amended)**: the cache CAN hold two valid entries with identical
(bssid, station): a second Message-1 upsert for a pair that already has a
valid, unexpired entry is written to the next invalid slot, leaving two
valid entries for the pair (slots 0 and 1 when starting from a cleared
cache). -/
theorem c4_duplicate_valid_entries (B S anonce replay : List Nat)
    (kdt kdv t1 t2 : Nat) (h1 : t1 ≤ t2) (h2 : t2 - t1 ≤ CACHE_TIMEOUT_MS)
    (h3 : t2 < 4294967296) :
    ((m1Upsert (m1Upsert clearedCache t1 B S anonce replay kdt kdv) t2
        B S anonce replay kdt kdv).getD 0 emptyEntry).valid = true ∧
    ((m1Upsert (m1Upsert clearedCache t1 B S anonce replay kdt kdv) t2
        B S anonce replay kdt kdv).getD 1 emptyEntry).valid = true ∧
    ((m1Upsert (m1Upsert clearedCache t1 B S anonce replay kdt kdv) t2
        B S anonce replay kdt kdv).getD 0 emptyEntry).bssid = B ∧
    ((m1Upsert (m1Upsert clearedCache t1 B S anonce replay kdt kdv) t2
        B S anonce replay kdt kdv).getD 1 emptyEntry).bssid = B ∧
    ((m1Upsert (m1Upsert clearedCache t1 B S anonce replay kdt kdv) t2
        B S anonce replay kdt kdv).getD 0 emptyEntry).sta = S ∧
    ((m1Upsert (m1Upsert clearedCache t1 B S anonce replay kdt kdv) t2
        B S anonce replay kdt kdv).getD 1 emptyEntry).sta = S := by
  have hc1 : m1Upsert clearedCache t1 B S anonce replay kdt kdv =
      CacheEntry.mk B S anonce replay kdt kdv t1 true ::
        List.replicate 15 emptyEntry := rfl
  have hexp : ¬ (u32sub t2 t1 > CACHE_TIMEOUT_MS) := by
    have h2x : t2 - t1 ≤ 10000 := h2
    unfold u32sub CACHE_TIMEOUT_MS
    omega
  have hslot2 : findSlot (CacheEntry.mk B S anonce replay kdt kdv t1 true ::
      List.replicate 15 emptyEntry) t2 = 1 := by
    unfold findSlot
    rw [findSlotLoop,
      if_neg (show ¬ ((CacheEntry.mk B S anonce replay kdt kdv t1 true).valid = false)
        by simp),
      if_neg hexp]
    split
    · exact findSlotLoop_empty_head t2 1 t1 0 14
    · exact findSlotLoop_empty_head t2 1 4294967295 0 14
  have hc2 : m1Upsert (CacheEntry.mk B S anonce replay kdt kdv t1 true ::
      List.replicate 15 emptyEntry) t2 B S anonce replay kdt kdv =
      CacheEntry.mk B S anonce replay kdt kdv t1 true ::
        CacheEntry.mk B S anonce replay kdt kdv t2 true ::
          List.replicate 14 emptyEntry := by
    unfold m1Upsert
    rw [hslot2]
    rfl
  rw [hc1, hc2]
  exact ⟨rfl, rfl, rfl, rfl, rfl, rfl⟩

/-- Witness for the amended C4 at a concrete input. -/
theorem c4_witness :
    ((m1Upsert (m1Upsert clearedCache 0 bssidB staS (List.replicate 32 7)
        (List.replicate 8 0) 2 2) 5 bssidB staS (List.replicate 32 7)
        (List.replicate 8 0) 2 2).getD 1 emptyEntry).valid = true :=
  (c4_duplicate_valid_entries bssidB staS (List.replicate 32 7)
    (List.replicate 8 0) 2 2 0 5 (by decide) (by decide) (by decide)).2.1

/-! ## C5: bounded cache and eviction policy -/

theorem findSlotLoop_reusable (now : Nat) (l : List CacheEntry) (i ot os : Nat)
    (h : ∃ e ∈ l, slotReusable now e) :
    ∃ k, k < l.length ∧ findSlotLoop now l i ot os = i + k ∧
      slotReusable now (l.getD k emptyEntry) := by
  induction l generalizing i ot os with
  | nil => simp at h
  | cons e rest ih =>
    by_cases hv : e.valid = false
    · refine ⟨0, by simp, ?_, ?_⟩
      · rw [findSlotLoop, if_pos hv]
        omega
      · simpa using Or.inl hv
    · by_cases hexp : u32sub now e.last_seen > CACHE_TIMEOUT_MS
      · refine ⟨0, by simp, ?_, ?_⟩
        · rw [findSlotLoop, if_neg hv, if_pos hexp]
          omega
        · simpa using Or.inr hexp
      · have hrest : ∃ e2 ∈ rest, slotReusable now e2 := by
          rcases h with ⟨x, hx, hp⟩
          rcases List.mem_cons.1 hx with rfl | hx2
          · rcases hp with hp1 | hp2
            · exact absurd hp1 hv
            · exact absurd hp2 hexp
          · exact ⟨x, hx2, hp⟩
        by_cases hlt : e.last_seen < ot
        · rcases ih (i + 1) e.last_seen i hrest with ⟨k, hk, hres, hre⟩
          refine ⟨k + 1, by simpa using Nat.succ_lt_succ hk, ?_, ?_⟩
          · rw [findSlotLoop, if_neg hv, if_neg hexp, if_pos hlt, hres]
            omega
          · simpa using hre
        · rcases ih (i + 1) ot os hrest with ⟨k, hk, hres, hre⟩
          refine ⟨k + 1, by simpa using Nat.succ_lt_succ hk, ?_, ?_⟩
          · rw [findSlotLoop, if_neg hv, if_neg hexp, if_neg hlt, hres]
            omega
          · simpa using hre

theorem findSlotLoop_oldest (now : Nat) (l : List CacheEntry) (i ot os : Nat)
    (h : ∀ e ∈ l, ¬ slotReusable now e) :
    (findSlotLoop now l i ot os = os ∧ ∀ e ∈ l, ot ≤ e.last_seen) ∨
    (∃ k, k < l.length ∧ findSlotLoop now l i ot os = i + k ∧
      (l.getD k emptyEntry).last_seen < ot ∧
      ∀ e ∈ l, (l.getD k emptyEntry).last_seen ≤ e.last_seen) := by
  induction l generalizing i ot os with
  | nil =>
    left
    exact ⟨rfl, by simp⟩
  | cons e rest ih =>
    have hv : ¬ (e.valid = false) := fun hc =>
      h e (List.mem_cons_self e rest) (Or.inl hc)
    have hexp : ¬ (u32sub now e.last_seen > CACHE_TIMEOUT_MS) := fun hc =>
      h e (List.mem_cons_self e rest) (Or.inr hc)
    have hrest : ∀ e2 ∈ rest, ¬ slotReusable now e2 := fun e2 he2 =>
      h e2 (List.mem_cons_of_mem e he2)
    by_cases hlt : e.last_seen < ot
    · rcases ih (i + 1) e.last_seen i hrest with ⟨hres, hmin⟩ | ⟨k, hk, hres, hklt, hmin⟩
      · right
        refine ⟨0, by simp, ?_, ?_, ?_⟩
        · rw [findSlotLoop, if_neg hv, if_neg hexp, if_pos hlt, hres]
          omega
        · simpa using hlt
        · intro x hx
          simp only [List.getD_cons_zero]
          rcases List.mem_cons.1 hx with rfl | hx2
          · exact le_refl _
          · exact hmin x hx2
      · right
        refine ⟨k + 1, by simpa using Nat.succ_lt_succ hk, ?_, ?_, ?_⟩
        · rw [findSlotLoop, if_neg hv, if_neg hexp, if_pos hlt, hres]
          omega
        · simp only [List.getD_cons_succ]
          exact lt_trans hklt hlt
        · intro x hx
          simp only [List.getD_cons_succ]
          rcases List.mem_cons.1 hx with rfl | hx2
          · exact le_of_lt hklt
          · exact hmin x hx2
    · rcases ih (i + 1) ot os hrest with ⟨hres, hmin⟩ | ⟨k, hk, hres, hklt, hmin⟩
      · left
        refine ⟨?_, ?_⟩
        · rw [findSlotLoop, if_neg hv, if_neg hexp, if_neg hlt, hres]
        · intro x hx
          rcases List.mem_cons.1 hx with rfl | hx2
          · omega
          · exact hmin x hx2
      · right
        refine ⟨k + 1, by simpa using Nat.succ_lt_succ hk, ?_, ?_, ?_⟩
        · rw [findSlotLoop, if_neg hv, if_neg hexp, if_neg hlt, hres]
          omega
        · simpa using hklt
        · intro x hx
          simp only [List.getD_cons_succ]
          rcases List.mem_cons.1 hx with rfl | hx2
          · omega
          · exact hmin x hx2

theorem findSlot_reusable (cache : List CacheEntry) (now : Nat)
    (h : ∃ e ∈ cache, slotReusable now e) :
    findSlot cache now < cache.length ∧
      slotReusable now (cache.getD (findSlot cache now) emptyEntry) := by
  rcases findSlotLoop_reusable now cache 0 4294967295 0 h with ⟨k, hk, hres, hre⟩
  have h0 : (0 : Nat) + k = k := by omega
  unfold findSlot
  rw [hres, h0]
  exact ⟨hk, hre⟩

theorem findSlot_oldest (cache : List CacheEntry) (now : Nat)
    (h : ∀ e ∈ cache, ¬ slotReusable now e)
    (hbound : ∀ e ∈ cache, e.last_seen < 4294967296) :
    ∀ e ∈ cache, (cache.getD (findSlot cache now) emptyEntry).last_seen ≤ e.last_seen := by
  rcases findSlotLoop_oldest now cache 0 4294967295 0 h with ⟨hres, hmin⟩ | ⟨k, hk, hres, hklt, hmin⟩
  · unfold findSlot
    rw [hres]
    intro e he
    have he1 : e.last_seen = 4294967295 := by
      have h1 := hmin e he
      have h2 := hbound e he
      omega
    cases cache with
    | nil => exact absurd he (List.not_mem_nil e)
    | cons hd tl =>
      have hh1 := hmin hd (List.mem_cons_self hd tl)
      have hh2 := hbound hd (List.mem_cons_self hd tl)
      simp only [List.getD_cons_zero]
      omega
  · unfold findSlot
    rw [hres]
    have h0 : (0 : Nat) + k = k := by omega
    rw [h0]
    exact hmin

/-- **C5**: the handshake cache is a fixed 16-slot array whose size never
changes on a Message-1 upsert; the upsert reuses an invalid-or-expired
slot whenever one exists and otherwise overwrites a slot whose `last_seen`
is smallest; and inserting 17 distinct Message-1s with no intervening
Message-2 (all within the timeout) leaves 16 valid entries, evicts exactly
the oldest pair (pair 0), keeps pairs 1..15 in slots 1..15, and overwrites
slot 0 with pair 16. -/
theorem c5_cache_eviction (cache : List CacheEntry) (now : Nat)
    (B S anonce replay : List Nat) (kdt kdv : Nat)
    (hbound : ∀ e ∈ cache, e.last_seen < 4294967296) :
    (m1Upsert cache now B S anonce replay kdt kdv).length = cache.length ∧
    ((∃ e ∈ cache, slotReusable now e) →
      slotReusable now (cache.getD (findSlot cache now) emptyEntry)) ∧
    ((∀ e ∈ cache, ¬ slotReusable now e) →
      ∀ e ∈ cache, (cache.getD (findSlot cache now) emptyEntry).last_seen ≤ e.last_seen) ∧
    seventeenInserts.length = 16 ∧
    seventeenInserts.countP (fun e => e.valid) = 16 ∧
    (∀ e ∈ seventeenInserts, ¬ (e.bssid = pairB 0 ∧ e.sta = pairS 0)) ∧
    (seventeenInserts.getD 0 emptyEntry).bssid = pairB 16 ∧
    (seventeenInserts.getD 0 emptyEntry).sta = pairS 16 ∧
    (∀ j, j < 16 → 1 ≤ j →
      (seventeenInserts.getD j emptyEntry).bssid = pairB j ∧
      (seventeenInserts.getD j emptyEntry).sta = pairS j) := by
  refine ⟨by simp [m1Upsert], fun h => (findSlot_reusable cache now h).2,
    fun h => findSlot_oldest cache now h hbound, ?_, ?_, ?_, ?_, ?_, ?_⟩
  · decide
  · decide
  · decide
  · decide
  · decide
  · decide

/-- Witness for C5 at a concrete input. -/
theorem c5_witness :
    (m1Upsert clearedCache 0 bssidB staS (List.replicate 32 7)
        (List.replicate 8 0) 2 2).length = clearedCache.length ∧
    slotReusable 0 (clearedCache.getD (findSlot clearedCache 0) emptyEntry) :=
  ⟨(c5_cache_eviction clearedCache 0 bssidB staS (List.replicate 32 7)
      (List.replicate 8 0) 2 2 (by decide)).1,
   (c5_cache_eviction clearedCache 0 bssidB staS (List.replicate 32 7)
      (List.replicate 8 0) 2 2 (by decide)).2.1 (by decide)⟩

/-! ## C7: burst restores passive capture on the target channel -/

/-- **C7**: a deauth burst invoked while sniffing, on a driver-accepted
channel (1..13), completes with the original MAC restored, sniffing
re-enabled on the channel passed to the burst (not the pre-burst channel),
channel hopping restored exactly when it was enabled before (and only with
passive capture active), and recon mode and the hop index unchanged; the
only other state change is the internal 16-bit sequence counter advanced
by `count`. -/
theorem c7_burst_restores_sniffing (target : Option (List Nat)) (ap : List Nat)
    (channel reason count : Nat) (s : WifiState)
    (hsniff : s.promiscuous_active = true) (hch1 : 1 ≤ channel) (hch2 : channel ≤ 13) :
    ∃ frames sent err,
      wifi_send_deauth_burst driverOk target ap channel reason count s =
        .ok ({ s with current_channel := channel, promiscuous_active := true,
                      deauth_seq := (s.deauth_seq + count) % 65536 }, frames, sent, err) ∧
      ({ s with current_channel := channel, promiscuous_active := true,
                deauth_seq := (s.deauth_seq + count) % 65536 } : WifiState).ap_mac = s.ap_mac ∧
      ({ s with current_channel := channel, promiscuous_active := true,
                deauth_seq := (s.deauth_seq + count) % 65536 } : WifiState).channel_hopping =
        s.channel_hopping ∧
      ({ s with current_channel := channel, promiscuous_active := true,
                deauth_seq := (s.deauth_seq + count) % 65536 } : WifiState).recon_mode =
        s.recon_mode ∧
      ({ s with current_channel := channel, promiscuous_active := true,
                deauth_seq := (s.deauth_seq + count) % 65536 } : WifiState).hop_index =
        s.hop_index := by
  have hch0 : ¬ (channel = 0) := by omega
  have hchin : 0 < channel ∧ channel ≤ 13 := ⟨hch1, hch2⟩
  refine ⟨burstFrames target ap s.deauth_seq count,
    (List.range count).countP (fun _ => true),
    if (List.range count).countP (fun _ => true) > 0 then .ok else .fail,
    ?_, rfl, rfl, rfl, rfl⟩
  cases hb : s.channel_hopping with
  | false =>
    simp only [wifi_send_deauth_burst, wifi_sniffer_start, driverOk, hsniff, hb,
      hch0, hchin, if_false, if_true, ite_false, ite_true, ne_eq,
      not_true_eq_false, not_false_eq_true]
    simp
  | true =>
    simp only [wifi_send_deauth_burst, wifi_sniffer_start, driverOk, hsniff, hb,
      hch0, hchin, if_false, if_true, ite_false, ite_true, ne_eq,
      not_true_eq_false, not_false_eq_true]
    simp

/-- Witness for C7 at a concrete input. -/
theorem c7_witness :
    ∃ frames sent err,
      wifi_send_deauth_burst driverOk none [9, 9, 9, 9, 9, 9] 11 7 5
        (WifiState.mk 6 true true false [1, 2, 3, 4, 5, 6] 100 3) =
        .ok (WifiState.mk 11 true true false [1, 2, 3, 4, 5, 6] 105 3, frames, sent, err) := by
  rcases c7_burst_restores_sniffing none [9, 9, 9, 9, 9, 9] 11 7 5
      (WifiState.mk 6 true true false [1, 2, 3, 4, 5, 6] 100 3) rfl
      (by decide) (by decide) with ⟨frames, sent, err, heq, _⟩
  exact ⟨frames, sent, err, heq⟩

/-! ## C9: driver failure during the mode switch -/

/-- **C9 counterexample**: with a driver whose `esp_wifi_set_mode` fails,
the burst does not surface an error result with the original MAC restored:
it aborts the process (`ESP_ERROR_CHECK`) while the spoofed AP MAC
`[9,9,9,9,9,9]` (≠ the original `[1,2,3,4,5,6]`) is still configured. -/
theorem c9_counterexample :
    wifi_send_deauth_burst (DeauthDriver.mk .fail .ok .ok .ok .ok (fun _ => true))
      none [9, 9, 9, 9, 9, 9] 6 7 3
      (WifiState.mk 1 true false false [1, 2, 3, 4, 5, 6] 0 0) =
      .error (WifiState.mk 1 true false false [9, 9, 9, 9, 9, 9] 0 0) ∧
    ([9, 9, 9, 9, 9, 9] : List Nat) ≠ [1, 2, 3, 4, 5, 6] :=
  ⟨rfl, by decide⟩

/-- **C9 (amended)**: if the first checked driver reconfiguration call
of the mode-switch step fails, `ESP_ERROR_CHECK` aborts the process before
any frame is transmitted: no frame is sent and no error result reaches the
caller, and the radio is left with the spoofed AP MAC configured and
hopping stopped — the original MAC and mode are not restored. -/
theorem c9_reconfig_failure_aborts (drv : DeauthDriver) (target : Option (List Nat))
    (ap : List Nat) (channel reason count : Nat) (s : WifiState)
    (hfail : drv.set_mode_res ≠ .ok) :
    wifi_send_deauth_burst drv target ap channel reason count s =
      .error { s with channel_hopping := false, ap_mac := ap } := by
  unfold wifi_send_deauth_burst
  rw [if_pos hfail]

/-- Witness for the amended C9 at a concrete input. -/
theorem c9_witness :
    wifi_send_deauth_burst (DeauthDriver.mk .invalidArg .ok .ok .ok .ok (fun _ => true))
      none [2, 2, 2, 2, 2, 2] 5 7 10
      (WifiState.mk 3 true true false [8, 8, 8, 8, 8, 8] 4 2) =
      .error (WifiState.mk 3 true false false [2, 2, 2, 2, 2, 2] 4 2) :=
  c9_reconfig_failure_aborts (DeauthDriver.mk .invalidArg .ok .ok .ok .ok (fun _ => true))
    none [2, 2, 2, 2, 2, 2] 5 7 10
    (WifiState.mk 3 true true false [8, 8, 8, 8, 8, 8] 4 2) (by decide)
